import Mathlib

/-!
Verification of the nothelix tree-sitter binding
(`src/bindings/rust/lib.rs`) against its specification.

The binding is a thin shim: it declares a foreign entry point
`tree_sitter_notebook`, wraps it in a safe accessor `language()`, and
re-exports four build-time text constants.  The native grammar, the
asset files pulled in by `include_str!`, and the tree-sitter runtime
are not part of the repository's sources; where a claim depends on
them they are modelled from the specification, and each such
definition says so in its doc comment.
-/

namespace Nothelix

/-- Modelled from the spec: the parsing runtime's statically known
expected ABI version constant `tree_sitter::LANGUAGE_VERSION`; the
runtime itself is external to this repository.  The concrete value is
the one shipped by the tree-sitter crate generation this binding
targets. -/
def LANGUAGE_VERSION : Nat := 14

/-- The `tree_sitter::Language` descriptor as observed through the
binding: a handle word (non-null when nonzero) and the ABI version
reported by `Language::version()`. -/
structure Language where
  handle : Nat
  version : Nat
deriving Repr, DecidableEq

/-- A language handle is valid when its underlying handle word is
non-null. -/
def Language.isValid (l : Language) : Bool := l.handle != 0

/-- Modelled from the spec: the native grammar entry point
`fn tree_sitter_notebook() -> Language` (the compiled grammar artifact
is not in the repository's sources).  Per the spec it returns a valid
static descriptor, with no side effects, whose version matches the
runtime's expected ABI version. -/
def tree_sitter_notebook : Language :=
  { handle := 1, version := LANGUAGE_VERSION }

/-- Ambient observable state visible to a caller of the binding: an
abstract environment word.  The binding owns no mutable state of its
own, so this is everything a frame property can mention. -/
structure BindingState where
  env : Nat
deriving Repr, DecidableEq

/-- Translation of the accessor
`pub fn language() -> Language \x7b unsafe \x7b tree_sitter_notebook() \x7d \x7d`,
with the observable state passed explicitly: the body is exactly the
foreign call, which per its trusted contract reads and writes no
state. -/
def language (s : BindingState) : Language × BindingState :=
  (tree_sitter_notebook, s)

/-- Modelled from the spec: the distinguishable configuration-error
value the runtime's set-language step reports on an ABI version
mismatch, carrying the expected and the actual version. -/
structure LanguageError where
  expected : Nat
  actual : Nat
deriving Repr, DecidableEq

/-- Modelled from the spec: the parsing runtime's set-language
operation (`Parser::set_language`, external to this repository).  It
accepts a descriptor whose version matches the runtime's expected ABI
version and otherwise reports an explicit error value carrying the
expected and the actual version. -/
def set_language (l : Language) : Except LanguageError Unit :=
  if l.version = LANGUAGE_VERSION then Except.ok ()
  else Except.error { expected := LANGUAGE_VERSION, actual := l.version }

/-- The foreign entry point instrumented with a call trace: it appends
its own name to the trace of foreign calls performed. -/
def tree_sitter_notebook_traced (t : List String) : Language × List String :=
  (tree_sitter_notebook, t ++ ["tree_sitter_notebook"])

/-- The accessor's body over the traced foreign entry point, translated
from the source: the body is a single call, nothing else. -/
def language_traced (t : List String) : Language × List String :=
  tree_sitter_notebook_traced t

/-- Modelled from the spec: the content of the grammar's
`node-types.json` asset baked in by `include_str!` (the file itself is
not among the repository's sources); a schema document enumerating the
grammar's node type names. -/
def NODE_TYPES : String :=
  "[\n  \x7b\n    \"type\": \"document\",\n    \"named\": true\n  \x7d,\n  \x7b\n    \"type\": \"cell\",\n    \"named\": true\n  \x7d,\n  \x7b\n    \"type\": \"cell_marker\",\n    \"named\": true\n  \x7d,\n  \x7b\n    \"type\": \"code_content\",\n    \"named\": true\n  \x7d\n]\n"

/-- Modelled from the spec: the syntax highlighting query asset
`queries/highlights.scm` baked in by `include_str!` (not among the
repository's sources). -/
def HIGHLIGHTS_QUERY : String :=
  "(cell_marker) @punctuation.special\n\n(language_identifier) @label\n\n(metadata) @attribute\n"

/-- Modelled from the spec: the injection query asset
`queries/injections.scm` baked in by `include_str!` (not among the
repository's sources). -/
def INJECTIONS_QUERY : String :=
  "((cell\n   (language_identifier) @injection.language\n   (code_content) @injection.content))\n"

/-- Modelled from the spec: the text objects query asset
`queries/textobjects.scm` baked in by `include_str!` (not among the
repository's sources). -/
def TEXTOBJECTS_QUERY : String :=
  "(cell) @function.around\n\n(code_content) @function.inside\n"

/-- Read access to the `NODE_TYPES` constant, the only operation the
exposed assets support. -/
def read_NODE_TYPES (s : BindingState) : String × BindingState :=
  (NODE_TYPES, s)

/-- Read access to the `HIGHLIGHTS_QUERY` constant. -/
def read_HIGHLIGHTS_QUERY (s : BindingState) : String × BindingState :=
  (HIGHLIGHTS_QUERY, s)

/-- Read access to the `INJECTIONS_QUERY` constant. -/
def read_INJECTIONS_QUERY (s : BindingState) : String × BindingState :=
  (INJECTIONS_QUERY, s)

/-- Read access to the `TEXTOBJECTS_QUERY` constant. -/
def read_TEXTOBJECTS_QUERY (s : BindingState) : String × BindingState :=
  (TEXTOBJECTS_QUERY, s)

/-- JSON values, for checking that `NODE_TYPES` is well-formed
structured data. -/
inductive Json where
  | null : Json
  | bool : Bool → Json
  | num : Nat → Json
  | str : String → Json
  | arr : List Json → Json
  | obj : List (String × Json) → Json
deriving Repr

/-- The opening-brace character, written by code so that no brace
appears in a literal. -/
def lbrace : Char := Char.ofNat 123

/-- The closing-brace character. -/
def rbrace : Char := Char.ofNat 125

/-- Drop leading JSON whitespace. -/
def skipWs : List Char → List Char
  | [] => []
  | c :: rest =>
    if c = ' ' || c = '\n' || c = '\t' || c = '\r' then skipWs rest
    else c :: rest

/-- Scan the body of a JSON string up to its closing quote. -/
def parseStringChars : List Char → Option (List Char × List Char)
  | [] => none
  | c :: rest =>
    if c = '"' then some ([], rest)
    else (parseStringChars rest).map (fun p => (c :: p.1, p.2))

/-- Take a maximal run of decimal digits. -/
def takeDigits : List Char → List Char × List Char
  | [] => ([], [])
  | c :: rest =>
    if c.isDigit then
      let p := takeDigits rest
      (c :: p.1, p.2)
    else ([], c :: rest)

/-- Decimal digits to a natural number. -/
def digitsToNat (ds : List Char) : Nat :=
  ds.foldl (fun acc c => acc * 10 + (c.toNat - 48)) 0

mutual

/-- Fueled recursive-descent parser for a JSON value. -/
def parseVal : Nat → List Char → Option (Json × List Char)
  | 0, _ => none
  | fuel + 1, cs =>
    match skipWs cs with
    | 'n' :: 'u' :: 'l' :: 'l' :: r => some (Json.null, r)
    | 't' :: 'r' :: 'u' :: 'e' :: r => some (Json.bool true, r)
    | 'f' :: 'a' :: 'l' :: 's' :: 'e' :: r => some (Json.bool false, r)
    | '"' :: r => (parseStringChars r).map (fun p => (Json.str (String.mk p.1), p.2))
    | '[' :: r => parseArrItems fuel (skipWs r)
    | c :: r =>
      if c = lbrace then parseObjItems fuel (skipWs r)
      else if c.isDigit then
        let p := takeDigits (c :: r)
        some (Json.num (digitsToNat p.1), p.2)
      else none
    | [] => none

/-- Items of a JSON array, after the opening bracket. -/
def parseArrItems : Nat → List Char → Option (Json × List Char)
  | 0, _ => none
  | fuel + 1, cs =>
    match cs with
    | ']' :: r => some (Json.arr [], r)
    | _ =>
      match parseVal fuel cs with
      | none => none
      | some (v, r) =>
        match skipWs r with
        | ',' :: r2 =>
          match parseArrItems fuel (skipWs r2) with
          | some (Json.arr vs, r3) => some (Json.arr (v :: vs), r3)
          | _ => none
        | ']' :: r2 => some (Json.arr [v], r2)
        | _ => none

/-- Members of a JSON object, after the opening brace. -/
def parseObjItems : Nat → List Char → Option (Json × List Char)
  | 0, _ => none
  | fuel + 1, cs =>
    match cs with
    | '"' :: r =>
      match parseStringChars r with
      | none => none
      | some (k, r1) =>
        match skipWs r1 with
        | ':' :: r2 =>
          match parseVal fuel r2 with
          | none => none
          | some (v, r3) =>
            match skipWs r3 with
            | ',' :: r4 =>
              match parseObjItems fuel (skipWs r4) with
              | some (Json.obj kvs, r5) =>
                some (Json.obj ((String.mk k, v) :: kvs), r5)
              | _ => none
            | c :: r4 => if c = rbrace then some (Json.obj [(String.mk k, v)], r4) else none
            | [] => none
        | _ => none
    | c :: r => if c = rbrace then some (Json.obj [], r) else none
    | [] => none

end

/-- Parse a whole JSON document: one value followed only by
whitespace. -/
def parseJson (s : String) : Option Json :=
  match parseVal (2 * s.length + 2) s.toList with
  | some (j, r) => if skipWs r = [] then some j else none
  | none => none

/-- The string bound to the key `type` of a JSON object, when
present. -/
def typeField : List (String × Json) → Option String
  | [] => none
  | (k, v) :: rest =>
    if k = "type" then
      match v with
      | Json.str s => some s
      | _ => none
    else typeField rest

/-- The node type names described by a parsed `node-types.json`
document: the `type` fields of the entries of the top-level array. -/
def nodeTypeNames : Json → List String
  | Json.arr xs =>
    xs.filterMap (fun j =>
      match j with
      | Json.obj kvs => typeField kvs
      | _ => none)
  | _ => []

/-- Balanced-parenthesis check for query documents, tracking the
current nesting depth. -/
def balancedFrom : List Char → Nat → Bool
  | [], 0 => true
  | [], _ + 1 => false
  | '(' :: rest, d => balancedFrom rest (d + 1)
  | ')' :: _, 0 => false
  | ')' :: rest, d + 1 => balancedFrom rest d
  | _ :: rest, d => balancedFrom rest d

/-- Syntactic validity in the runtime's query sublanguage, as far as
the binding can observe it: the document is non-empty and its
S-expression parentheses balance. -/
def queryValid (q : String) : Bool :=
  (q != "") && balancedFrom q.toList 0

/-- Modelled from the spec: the runtime's query-compilation step
(external to this repository): configured with a language handle, it
succeeds exactly when the handle's version matches the runtime's
expected ABI version and the query text is syntactically valid. -/
def compileQuery (l : Language) (q : String) : Except String Unit :=
  if l.version = LANGUAGE_VERSION then
    if queryValid q then Except.ok () else Except.error "query syntax error"
  else Except.error "language version mismatch"

/-- C1: every call to `language()` yields a handle whose reported
version equals the runtime's expected version constant. -/
theorem C1_language_version (s : BindingState) :
    (language s).1.version = LANGUAGE_VERSION := rfl

/-- C2: `language()` is total, returns a valid non-null handle, and the
handle is accepted by the runtime's set-language operation. -/
theorem C2_language_valid (s : BindingState) :
    (language s).1.isValid = true ∧
    set_language (language s).1 = Except.ok () := by
  constructor <;> rfl

/-- C3: `language()` is deterministic and idempotent: two successive
calls return handles with equal version fields, and the returned
handle does not depend on the state the call is made from. -/
theorem C3_language_deterministic (s s' : BindingState) :
    (language ((language s).2)).1.version = (language s).1.version ∧
    (language s).1 = (language s').1 := by
  constructor <;> rfl

/-- C4: on a version mismatch the set-language step reports an
explicit error value carrying the expected and the actual version; it
does not crash and the error does not come from `language()` itself,
whose result type has no error case. -/
theorem C4_version_mismatch_error (l : Language)
    (h : l.version ≠ LANGUAGE_VERSION) :
    set_language l =
      Except.error { expected := LANGUAGE_VERSION, actual := l.version } := by
  simp [set_language, h]

/-- Witness for C4 at the concrete mismatched descriptor
`⟨1, 13⟩`. -/
theorem C4_version_mismatch_error_witness :
    (Language.mk 1 13).version ≠ LANGUAGE_VERSION ∧
    set_language (Language.mk 1 13) =
      Except.error { expected := LANGUAGE_VERSION, actual := 13 } :=
  ⟨by decide, C4_version_mismatch_error (Language.mk 1 13) (by decide)⟩

/-- C5: the four exposed constants support only read access; every
read yields the build-time blob, the value read is the same whatever
state it is read from, and reading mutates nothing. -/
theorem C5_constants_immutable (s s' : BindingState) :
    read_NODE_TYPES s = (NODE_TYPES, s) ∧
    read_HIGHLIGHTS_QUERY s = (HIGHLIGHTS_QUERY, s) ∧
    read_INJECTIONS_QUERY s = (INJECTIONS_QUERY, s) ∧
    read_TEXTOBJECTS_QUERY s = (TEXTOBJECTS_QUERY, s) ∧
    (read_NODE_TYPES s).1 = (read_NODE_TYPES s').1 ∧
    (read_HIGHLIGHTS_QUERY s).1 = (read_HIGHLIGHTS_QUERY s').1 ∧
    (read_INJECTIONS_QUERY s).1 = (read_INJECTIONS_QUERY s').1 ∧
    (read_TEXTOBJECTS_QUERY s).1 = (read_TEXTOBJECTS_QUERY s').1 := by
  refine ⟨rfl, rfl, rfl, rfl, rfl, rfl, rfl, rfl⟩

set_option maxRecDepth 40000 in
/-- C6: `NODE_TYPES` parses as a well-formed JSON document whose
top-level array describes a non-empty set of node type names. -/
theorem C6_node_types_wellformed :
    (parseJson NODE_TYPES).isSome = true ∧
    (parseJson NODE_TYPES).elim [] nodeTypeNames =
      ["document", "cell", "cell_marker", "code_content"] ∧
    (parseJson NODE_TYPES).elim [] nodeTypeNames ≠ [] := by
  refine ⟨rfl, rfl, by decide⟩

/-- C7: the three query constants are non-empty and syntactically
valid in the query sublanguage, and compiling `HIGHLIGHTS_QUERY`
against the handle returned by `language()` succeeds. -/
theorem C7_queries_valid (s : BindingState) :
    HIGHLIGHTS_QUERY ≠ "" ∧ INJECTIONS_QUERY ≠ "" ∧ TEXTOBJECTS_QUERY ≠ "" ∧
    queryValid HIGHLIGHTS_QUERY = true ∧
    queryValid INJECTIONS_QUERY = true ∧
    queryValid TEXTOBJECTS_QUERY = true ∧
    compileQuery (language s).1 HIGHLIGHTS_QUERY = Except.ok () := by
  refine ⟨by decide, by decide, by decide, rfl, rfl, rfl, rfl⟩

/-- C8: calling `language()` has no observable side effect: the state
is returned unchanged. -/
theorem C8_language_no_side_effects (s : BindingState) :
    (language s).2 = s := rfl

/-- C10: `language()` is a transparent identity wrapper over the
foreign entry point: it is observationally equal to the raw foreign
function, performs exactly one foreign call, and returns its result
unmodified. -/
theorem C10_transparent_wrapper (t : List String) :
    language_traced t = tree_sitter_notebook_traced t ∧
    (language_traced t).2 = t ++ ["tree_sitter_notebook"] ∧
    (language_traced t).1 = tree_sitter_notebook := by
  refine ⟨rfl, rfl, rfl⟩

end Nothelix
